import Mathlib

/-!
Verification of the Stock Sentinel signal-scoring and event-classification
engine, a shallow embedding of `src/sentinel/engines/psi_engine.py` together
with the configuration constants it reads from `src/sentinel/config/settings.py`.

Modelling conventions:
* Python floats and ints are modelled as `ℚ`; `round(x, n)` is modelled as
  decimal half-up rounding (`round1`, `round2`).  Every use is relational
  (the same function appears on both sides of each equation), so the exact
  tie-breaking convention is irrelevant to the theorems below.
* A Python dict input is modelled as a structure of `Option` fields
  (`none` = key absent, mirroring `dict.get` defaults), plus an `extra_keys`
  flag recording whether the dict holds keys the scorer never reads — needed
  because the source tests dict *truthiness* (`if not data`), which is
  emptiness of the whole dict.  `None` passed for a whole dict argument is
  normalised by the source via `or {}` and is therefore modelled by the
  all-`none` record.
* News timestamps are modelled as the already-parsed UTC instant in hours
  (`Option ℚ`); `none` models a missing timestamp or one on which
  `datetime.fromisoformat` raises (the bare `except: pass` in the source).
  The ambient wall clock `datetime.utcnow()` is made an explicit `now : ℚ`
  parameter.
* The human-readable Korean evidence / reasoning f-strings are modelled as
  inductive tags carrying the same numeric trigger values.
* The side effects of an evaluation (the `save_psi_score` database write,
  and the in-place `article['relevance_score'] = …` mutation of the input
  news items) are returned explicitly alongside the result.
-/

namespace Sentinel

/-! ## String helpers: Python's `in` substring test -/

/-- Whether `needle` is a prefix of `hay` (character lists). -/
def listStartsWith : List Char → List Char → Bool
  | [], _ => true
  | _ :: _, [] => false
  | a :: as, b :: bs => a == b && listStartsWith as bs

/-- Whether `needle` occurs as a contiguous substring of `hay`
(character lists); the empty needle always occurs, as in Python. -/
def listContainsSub (needle : List Char) : List Char → Bool
  | [] => listStartsWith needle []
  | b :: bs => listStartsWith needle (b :: bs) || listContainsSub needle bs

/-- Python's `needle in hay` substring test on strings. -/
def containsSub (needle hay : String) : Bool :=
  listContainsSub needle.data hay.data

/-- Python's `str.lower()`: characterwise lowercasing (the keyword tables
and fixtures exercised here are ASCII or Korean, on which characterwise
ASCII lowercasing and Python's Unicode lowercasing agree). -/
def lowerStr (s : String) : String := String.mk (s.data.map Char.toLower)

/-- Python's `round(x, 1)`, modelled as decimal half-up rounding. -/
def round1 (x : ℚ) : ℚ := (Int.floor (x * 10 + 1 / 2) : ℚ) / 10

/-- Python's `round(x, 2)`, modelled as decimal half-up rounding. -/
def round2 (x : ℚ) : ℚ := (Int.floor (x * 100 + 1 / 2) : ℚ) / 100

/-! ## Configuration (`src/sentinel/config/settings.py`) -/

/-- `SCORE_WEIGHTS` dict: component weights of the Pre-Signal Index. -/
structure ScoreWeights where
  options : ℚ
  attention : ℚ
  fact : ℚ
deriving DecidableEq

def SCORE_WEIGHTS : ScoreWeights :=
  { options := 0.35, attention := 0.30, fact := 0.35 }

def CONFLUENCE_BONUS : ℚ := 1.0

def NOISE_PENALTY_MAX : ℚ := 2.0

/-- `PSI_LEVELS` dict in its (insertion-ordered) iteration order. -/
def PSI_LEVELS : List (String × ℚ × ℚ) :=
  [("normal", 0, 3), ("watch", 3, 5), ("alert", 5, 7), ("critical", 7, 10)]

def TRIGGER_PSI_THRESHOLD : ℚ := 7.0

/-- `OPTIONS_SCORING` dict. -/
structure OptionsScoring where
  otm_volume_3x : ℚ
  otm_volume_5x : ℚ
  short_expiry_60pct : ℚ
  oi_change_50pct : ℚ
  iv_skew_2sigma : ℚ
  large_trade_100k : ℚ
deriving DecidableEq

def OPTIONS_SCORING : OptionsScoring :=
  { otm_volume_3x := 3, otm_volume_5x := 5, short_expiry_60pct := 2,
    oi_change_50pct := 2, iv_skew_2sigma := 1, large_trade_100k := 1 }

/-- `ATTENTION_SCORING` dict. -/
structure AttentionScoring where
  mention_accel_100pct : ℚ
  mention_accel_300pct : ℚ
  breaking_keywords : ℚ
  google_trends_2x : ℚ
  multi_platform : ℚ
deriving DecidableEq

def ATTENTION_SCORING : AttentionScoring :=
  { mention_accel_100pct := 3, mention_accel_300pct := 5,
    breaking_keywords := 2, google_trends_2x := 2, multi_platform := 1 }

def BREAKING_KEYWORDS : List String :=
  ["breaking", "just announced", "just reported",
   "urgent", "alert", "soars", "plunges", "surges",
   "crashes", "halted", "FDA approved", "settlement",
   "acquisition", "merger", "buyout", "recall",
   "속보", "긴급", "급등", "급락", "폭등", "폭락"]

/-- `FACT_SCORING` dict. -/
structure FactScoring where
  sec_8k : ℚ
  sec_other : ℚ
  regulatory : ℚ
  earnings_window : ℚ
  multi_source : ℚ
deriving DecidableEq

def FACT_SCORING : FactScoring :=
  { sec_8k := 4, sec_other := 2, regulatory := 3,
    earnings_window := 2, multi_source := 1 }

def NEGATIVE_KEYWORDS : List String :=
  ["lawsuit", "sued", "recall", "fraud", "investigation",
   "downgrade", "ban", "sanction", "penalty", "fine",
   "layoff", "cut", "miss", "disappointing", "weak",
   "소송", "리콜", "사기", "조사", "제재", "벌금"]

def POSITIVE_KEYWORDS : List String :=
  ["beat", "raise", "upgrade", "approved", "deal",
   "contract", "partnership", "record", "strong",
   "guidance above", "upside", "outperform",
   "상향", "호실적", "계약", "승인", "신고가"]

/-- `WatchItem` dataclass (configuration only; the engines store but never
read it). -/
structure WatchItem where
  ticker : String
  name : String
  sector : String
  related : List String := []
  keywords : List String := []
  china_exposure : String := "low"
  notes : String := ""
deriving DecidableEq

def WATCHLIST : List WatchItem :=
  [{ ticker := "AMAT", name := "Applied Materials",
     sector := "Semiconductor Equipment",
     related := ["ASML", "LRCX", "KLAC", "TSM", "INTC", "SMH"],
     keywords :=
       ["Applied Materials", "AMAT", "EUV", "High-NA", "GAA",
        "Gate-All-Around", "advanced packaging", "HBM", "CMP", "CVD", "PVD",
        "etch", "ion implant", "WFE", "2nm", "3nm", "N2", "A16",
        "BIS", "export control", "Entity List",
        "CHIPS Act", "TSMC capex", "Samsung foundry"],
     china_exposure := "high",
     notes := "WFE 1위. AI/HBM 수혜. BIS 수출규제 리스크." }]

/-- `WATCHMAP.get(ticker)`. -/
def WATCHMAP_get (t : String) : Option WatchItem :=
  WATCHLIST.find? (fun w => w.ticker == t)

/-! ## Input data model (loosely-typed dict arguments) -/

/-- The `options_data` dict read by `_calc_options_score`. -/
structure OptionsData where
  otm_call_volume_ratio : Option ℚ := none
  short_expiry_pct : Option ℚ := none
  oi_change_pct : Option ℚ := none
  iv_skew_sigma : Option ℚ := none
  large_trade_count : Option ℚ := none
  pc_ratio : Option ℚ := none
  extra_keys : Bool := false
deriving DecidableEq

/-- Python truthiness test `not data` on the options dict. -/
def OptionsData.isEmpty (d : OptionsData) : Bool :=
  d.otm_call_volume_ratio.isNone && d.short_expiry_pct.isNone &&
  d.oi_change_pct.isNone && d.iv_skew_sigma.isNone &&
  d.large_trade_count.isNone && d.pc_ratio.isNone && !d.extra_keys

/-- The `social_data` dict read by `_calc_attention_score`
(its truthiness is never tested, so no `extra_keys` field is needed). -/
structure SocialData where
  current_mentions : Option ℚ := none
  previous_mentions : Option ℚ := none
  breaking_keyword_found : Option Bool := none
  google_trends_ratio : Option ℚ := none
  platforms_active : Option (List String) := none
deriving DecidableEq

/-- The `price_data` dict read by `_calc_price_boost` and `_classify_event`. -/
structure PriceData where
  change_pct : Option ℚ := none
  volume_ratio : Option ℚ := none
  extra_keys : Bool := false
deriving DecidableEq

/-- Python truthiness test `not price_data` / `if price_data`. -/
def PriceData.isEmpty (d : PriceData) : Bool :=
  d.change_pct.isNone && d.volume_ratio.isNone && !d.extra_keys

/-- A news/filing item dict, as read by the engines.  `relevance_score` is
absent on collector output and written in place by the relevance ranker. -/
structure NewsItem where
  title : Option String := none
  summary : Option String := none
  url : Option String := none
  source : Option String := none
  source_type : Option String := none
  sentiment : Option String := none
  keywords_matched : Option (List String) := none
  timestamp : Option ℚ := none
  relevance_score : Option ℚ := none
deriving DecidableEq

/-! ## PreSignalEngine -/

/-- The engine object; `__init__` stores the ticker and the watch entry.
The `self.details` dict it also initialises is returned inside every
`calculate` result below, so it is not duplicated here. -/
structure PreSignalEngine where
  ticker : String
  watch : Option WatchItem
deriving DecidableEq

/-- The error taxonomy the specification assigns to construction. -/
inductive ConfigError
  | invalidConfiguration
deriving DecidableEq

/-- `PreSignalEngine.__init__`.  The module-level `SCORE_WEIGHTS` config the
engine will read is made an explicit argument; the `Except` result models the
possibility of raising at construction time.  The source constructor performs
no validation of any kind and always succeeds. -/
def PreSignalEngine.init (_weights : ScoreWeights) (ticker : String) :
    Except ConfigError PreSignalEngine :=
  .ok { ticker := ticker, watch := WATCHMAP_get ticker }

/-- Evidence entries of `_calc_options_score` (`details["factors"]`),
each carrying the numeric trigger value of its Korean f-string. -/
inductive OptFactor
  | no_data
  | otm_volume (otm_ratio delta : ℚ)
  | short_expiry (pct delta : ℚ)
  | oi_change (pct delta : ℚ)
  | iv_skew (sigma delta : ℚ)
  | large_trades (count delta : ℚ)
  | pc_anomaly (pcr : ℚ)
deriving DecidableEq

/-- `PreSignalEngine._calc_options_score`. -/
def PreSignalEngine.calc_options_score (data : OptionsData) :
    ℚ × List OptFactor :=
  if data.isEmpty then (0, [.no_data])
  else
    let otm_ratio := data.otm_call_volume_ratio.getD 0
    let s_otm : ℚ :=
      if otm_ratio ≥ 5 then OPTIONS_SCORING.otm_volume_5x
      else if otm_ratio ≥ 3 then OPTIONS_SCORING.otm_volume_3x else 0
    let f_otm : List OptFactor :=
      if otm_ratio ≥ 5 then [.otm_volume otm_ratio OPTIONS_SCORING.otm_volume_5x]
      else if otm_ratio ≥ 3 then [.otm_volume otm_ratio OPTIONS_SCORING.otm_volume_3x]
      else []
    let short_pct := data.short_expiry_pct.getD 0
    let s_short : ℚ := if short_pct ≥ 0.6 then OPTIONS_SCORING.short_expiry_60pct else 0
    let f_short : List OptFactor :=
      if short_pct ≥ 0.6 then [.short_expiry short_pct OPTIONS_SCORING.short_expiry_60pct] else []
    let oi_change := data.oi_change_pct.getD 0
    let s_oi : ℚ := if |oi_change| ≥ 50 then OPTIONS_SCORING.oi_change_50pct else 0
    let f_oi : List OptFactor :=
      if |oi_change| ≥ 50 then [.oi_change oi_change OPTIONS_SCORING.oi_change_50pct] else []
    let iv_skew_sigma := data.iv_skew_sigma.getD 0
    let s_iv : ℚ := if |iv_skew_sigma| ≥ 2 then OPTIONS_SCORING.iv_skew_2sigma else 0
    let f_iv : List OptFactor :=
      if |iv_skew_sigma| ≥ 2 then [.iv_skew iv_skew_sigma OPTIONS_SCORING.iv_skew_2sigma] else []
    let large_trades := data.large_trade_count.getD 0
    let s_large : ℚ := if large_trades > 0 then OPTIONS_SCORING.large_trade_100k else 0
    let f_large : List OptFactor :=
      if large_trades > 0 then [.large_trades large_trades OPTIONS_SCORING.large_trade_100k] else []
    let pcr := data.pc_ratio.getD 1.0
    let s_pc : ℚ := if pcr < 0.5 ∨ pcr > 2.0 then 1 else 0
    let f_pc : List OptFactor := if pcr < 0.5 ∨ pcr > 2.0 then [.pc_anomaly pcr] else []
    (min 10 (s_otm + s_short + s_oi + s_iv + s_large + s_pc),
     f_otm ++ f_short ++ f_oi ++ f_iv ++ f_large ++ f_pc)

/-- Evidence entries of `_calc_attention_score`. -/
inductive AttFactor
  | mention_accel (accel delta : ℚ)
  | breaking_keywords
  | google_trends (trends_ratio : ℚ)
  | multi_platform (platforms : List String)
  | news_volume (count : Nat)
deriving DecidableEq

/-- The per-article breaking-keyword scan of `_calc_attention_score`:
`kw.lower() in (title + ' ' + summary).lower()` for any configured keyword. -/
def newsHasBreakingKeyword (a : NewsItem) : Bool :=
  BREAKING_KEYWORDS.any fun kw =>
    containsSub (lowerStr kw) (lowerStr (a.title.getD "" ++ " " ++ a.summary.getD ""))

/-- `PreSignalEngine._calc_attention_score`. -/
def PreSignalEngine.calc_attention_score (social_data : SocialData)
    (news_data : List NewsItem) : ℚ × List AttFactor :=
  let current_mentions := social_data.current_mentions.getD 0
  let previous_mentions := social_data.previous_mentions.getD 0
  let accel : ℚ := ((current_mentions - previous_mentions) / previous_mentions) * 100
  let s_accel : ℚ :=
    if previous_mentions > 0 ∧ current_mentions > 0 then
      if accel ≥ 300 then ATTENTION_SCORING.mention_accel_300pct
      else if accel ≥ 100 then ATTENTION_SCORING.mention_accel_100pct else 0
    else 0
  let f_accel : List AttFactor :=
    if previous_mentions > 0 ∧ current_mentions > 0 then
      if accel ≥ 300 then [.mention_accel accel ATTENTION_SCORING.mention_accel_300pct]
      else if accel ≥ 100 then [.mention_accel accel ATTENTION_SCORING.mention_accel_100pct]
      else []
    else []
  let breaking_found := news_data.any newsHasBreakingKeyword
  let s_breaking : ℚ :=
    if breaking_found || social_data.breaking_keyword_found.getD false then
      ATTENTION_SCORING.breaking_keywords
    else 0
  let f_breaking : List AttFactor :=
    if breaking_found || social_data.breaking_keyword_found.getD false then
      [.breaking_keywords]
    else []
  let trends_ratio := social_data.google_trends_ratio.getD 0
  let s_trends : ℚ := if trends_ratio ≥ 2 then ATTENTION_SCORING.google_trends_2x else 0
  let f_trends : List AttFactor :=
    if trends_ratio ≥ 2 then [.google_trends trends_ratio] else []
  let platforms_active := social_data.platforms_active.getD []
  let s_platform : ℚ :=
    if platforms_active.length ≥ 2 then ATTENTION_SCORING.multi_platform else 0
  let f_platform : List AttFactor :=
    if platforms_active.length ≥ 2 then [.multi_platform platforms_active] else []
  let s_volume : ℚ := if news_data.length ≥ 10 then 1 else 0
  let f_volume : List AttFactor :=
    if news_data.length ≥ 10 then [.news_volume news_data.length] else []
  (min 10 (s_accel + s_breaking + s_trends + s_platform + s_volume),
   f_accel ++ f_breaking ++ f_trends ++ f_platform ++ f_volume)

/-- Evidence entries of `_calc_fact_score`. -/
inductive FactFactor
  | sec_8k
  | sec_other
  | regulatory
  | earnings
  | multi_source (count : Nat)
deriving DecidableEq

/-- The `details` dict of `_calc_fact_score`. -/
structure FactDetails where
  factors : List FactFactor
  filings : List String
  news_count : Nat
deriving DecidableEq

def REGULATORY_TERMS : List String :=
  ["bis", "fda", "ftc", "doj", "sec ", "settlement",
   "export control", "entity list", "approved", "cleared"]

def EARNINGS_TERMS : List String :=
  ["earnings", "eps", "revenue", "guidance", "quarter",
   "fiscal", "q1", "q2", "q3", "q4", "beat", "miss"]

/-- The filing test of `_calc_fact_score`:
`source_type == 'filing' or 'sec' in source.lower()`. -/
def newsIsFilingSource (a : NewsItem) : Bool :=
  a.source_type.getD "" == "filing" || containsSub "sec" (lowerStr (a.source.getD ""))

/-- The 8-K title test: `'8-k' in title or '8k' in title` on the lowered title. -/
def newsTitleHas8k (a : NewsItem) : Bool :=
  containsSub "8-k" (lowerStr (a.title.getD "")) || containsSub "8k" (lowerStr (a.title.getD ""))

/-- `PreSignalEngine._calc_fact_score`.  The source's single pass setting
boolean flags and a source set is expressed flag-by-flag. -/
def PreSignalEngine.calc_fact_score (news_data : List NewsItem) :
    ℚ × FactDetails :=
  let has_8k := news_data.any fun a => newsIsFilingSource a && newsTitleHas8k a
  let has_other_filing := news_data.any fun a => newsIsFilingSource a && !newsTitleHas8k a
  let has_regulatory := news_data.any fun a =>
    REGULATORY_TERMS.any fun term => containsSub term (lowerStr (a.title.getD ""))
  let has_earnings := news_data.any fun a =>
    EARNINGS_TERMS.any fun term => containsSub term (lowerStr (a.title.getD ""))
  let sources_count := (news_data.map fun a => a.source.getD "").dedup
  let filings := news_data.filterMap fun a =>
    if newsIsFilingSource a && newsTitleHas8k a then some (a.title.getD "") else none
  let s_filing : ℚ :=
    if has_8k then FACT_SCORING.sec_8k
    else if has_other_filing then FACT_SCORING.sec_other else 0
  let f_filing : List FactFactor :=
    if has_8k then [.sec_8k] else if has_other_filing then [.sec_other] else []
  let s_regulatory : ℚ := if has_regulatory then FACT_SCORING.regulatory else 0
  let f_regulatory : List FactFactor := if has_regulatory then [.regulatory] else []
  let s_earnings : ℚ := if has_earnings then FACT_SCORING.earnings_window else 0
  let f_earnings : List FactFactor := if has_earnings then [.earnings] else []
  let s_multi : ℚ := if sources_count.length ≥ 3 then FACT_SCORING.multi_source else 0
  let f_multi : List FactFactor :=
    if sources_count.length ≥ 3 then [.multi_source sources_count.length] else []
  (min 10 (s_filing + s_regulatory + s_earnings + s_multi),
   { factors := f_filing ++ f_regulatory ++ f_earnings ++ f_multi,
     filings := filings, news_count := news_data.length })

/-- Evidence entries of `_calc_price_boost`. -/
inductive PriceFactor
  | price_change (pct delta : ℚ)
  | volume_surge (vol_ratio : ℚ)
deriving DecidableEq

/-- `PreSignalEngine._calc_price_boost`. -/
def PreSignalEngine.calc_price_boost (price_data : PriceData) :
    ℚ × List PriceFactor :=
  if price_data.isEmpty then (0, [])
  else
    let signed_change := price_data.change_pct.getD 0
    let change_pct := |signed_change|
    let b_change : ℚ :=
      if change_pct ≥ 10 then 4.0
      else if change_pct ≥ 8 then 3.0
      else if change_pct ≥ 5 then 2.0
      else if change_pct ≥ 2 then 1.0 else 0
    let f_change : List PriceFactor :=
      if change_pct ≥ 10 then [.price_change signed_change 4.0]
      else if change_pct ≥ 8 then [.price_change signed_change 3.0]
      else if change_pct ≥ 5 then [.price_change signed_change 2.0]
      else if change_pct ≥ 2 then [.price_change signed_change 1.0] else []
    let vol_ratio := price_data.volume_ratio.getD 1.0
    let b_vol : ℚ := if vol_ratio ≥ 3 then 0.5 else 0
    let f_vol : List PriceFactor := if vol_ratio ≥ 3 then [.volume_surge vol_ratio] else []
    (min 4.5 (b_change + b_vol), f_change ++ f_vol)

/-- `PreSignalEngine._calc_noise_penalty`. -/
def PreSignalEngine.calc_noise_penalty (attention_score fact_score : ℚ) : ℚ :=
  if attention_score ≥ 5 ∧ fact_score ≤ 2 then
    min NOISE_PENALTY_MAX ((attention_score - fact_score) * 0.3)
  else 0

/-- `PreSignalEngine._get_level`: first matching band of the ordered
`PSI_LEVELS` table, with the source's fallback for values outside it. -/
def PreSignalEngine.get_level (psi : ℚ) : String :=
  match PSI_LEVELS.find? (fun lv => decide (lv.2.1 ≤ psi) && decide (psi < lv.2.2)) with
  | some lv => lv.1
  | none => if psi ≥ 7 then "critical" else "normal"

/-- The `details["confluence"]` entry. -/
structure ConfluenceDetail where
  bonus : ℚ
  high_count : Nat
deriving DecidableEq

/-- The `self.details` dict built by `calculate` (the `formula` f-string is
determined by the other fields and omitted). -/
structure CalcDetails where
  options : List OptFactor
  attention : List AttFactor
  fact : FactDetails
  price_boost : ℚ × List PriceFactor
  confluence : ConfluenceDetail
  noise : ℚ
deriving DecidableEq

/-- The result dict of `PreSignalEngine.calculate`. -/
structure PSIResult where
  ticker : String
  timestamp : ℚ
  options_score : ℚ
  attention_score : ℚ
  fact_score : ℚ
  confluence_bonus : ℚ
  noise_penalty : ℚ
  psi_total : ℚ
  level : String
  details : CalcDetails
deriving DecidableEq

/-- One `save_psi_score(...)` database write, with its arguments. -/
structure SaveRecord where
  ticker : String
  timestamp : ℚ
  options_score : ℚ
  attention_score : ℚ
  fact_score : ℚ
  confluence_bonus : ℚ
  noise_penalty : ℚ
  psi_total : ℚ
  level : String
  details : CalcDetails
deriving DecidableEq

/-- `PreSignalEngine.calculate`.  `w` is the module-level `SCORE_WEIGHTS`
made explicit, `now` the ambient `datetime.utcnow()`; the returned list holds
the database writes the call performs. -/
def PreSignalEngine.calculate (w : ScoreWeights) (e : PreSignalEngine) (now : ℚ)
    (options_data : OptionsData) (social_data : SocialData)
    (news_data : List NewsItem) (price_data : PriceData) :
    PSIResult × List SaveRecord :=
  let opt := PreSignalEngine.calc_options_score options_data
  let att := PreSignalEngine.calc_attention_score social_data news_data
  let fact := PreSignalEngine.calc_fact_score news_data
  let price_boost := PreSignalEngine.calc_price_boost price_data
  let high_count := ([opt.1, att.1, fact.1].countP fun s => decide (s ≥ 5))
  let confluence : ℚ := if high_count ≥ 2 then CONFLUENCE_BONUS else 0
  let noise := PreSignalEngine.calc_noise_penalty att.1 fact.1
  let psi_raw :=
    w.options * opt.1 + w.attention * att.1 + w.fact * fact.1 +
    confluence + price_boost.1 - noise
  let psi := max 0 (min 10 (round1 psi_raw))
  let level := PreSignalEngine.get_level psi
  let details : CalcDetails :=
    { options := opt.2, attention := att.2, fact := fact.2,
      price_boost := price_boost, confluence := { bonus := confluence, high_count := high_count },
      noise := noise }
  let result : PSIResult :=
    { ticker := e.ticker, timestamp := now,
      options_score := opt.1, attention_score := att.1, fact_score := fact.1,
      confluence_bonus := confluence, noise_penalty := noise,
      psi_total := psi, level := level, details := details }
  (result,
   [{ ticker := e.ticker, timestamp := now,
      options_score := opt.1, attention_score := att.1, fact_score := fact.1,
      confluence_bonus := confluence, noise_penalty := noise,
      psi_total := psi, level := level, details := details }])

/-! ## FlashReasonEngine -/

/-- The sort key of the relevance ranker: `x.get('relevance_score', 0)`. -/
def relevance_key (a : NewsItem) : ℚ := a.relevance_score.getD 0

/-- The per-article relevance computation of `_score_and_rank_news`,
returning the article with `relevance_score` written into it (the source
mutates the dict in place). -/
def FlashReasonEngine.score_article (now : ℚ) (a : NewsItem) : NewsItem :=
  let title := lowerStr (a.title.getD "")
  let s_keywords : ℚ := (a.keywords_matched.getD []).length * 0.1
  let s_source : ℚ :=
    if a.source_type == some "filing" then 0.3
    else if a.source.getD "" == "finnhub" || a.source.getD "" == "sec_edgar" then 0.2
    else 0
  let s_breaking : ℚ :=
    if BREAKING_KEYWORDS.any (fun kw => containsSub (lowerStr kw) title) then 0.2 else 0
  let s_recency : ℚ :=
    match a.timestamp with
    | none => 0
    | some pub_time =>
      let hours_ago := now - pub_time
      if hours_ago < 1 then 0.3
      else if hours_ago < 6 then 0.2
      else if hours_ago < 24 then 0.1 else 0
  let rel : ℚ := min 1.0 (round2 (s_keywords + s_source + s_breaking + s_recency))
  { a with relevance_score := some rel }

/-- The scoring pass of `_score_and_rank_news`: the in-place mutation of
every input item. -/
def FlashReasonEngine.score_news (now : ℚ) (news_data : List NewsItem) :
    List NewsItem :=
  news_data.map (FlashReasonEngine.score_article now)

/-- `FlashReasonEngine._score_and_rank_news`: score every item, then
Python's stable `sorted(..., key=relevance_score, reverse=True)`, modelled by
the stable `List.insertionSort` under the descending-relevance relation. -/
def FlashReasonEngine.score_and_rank_news (now : ℚ) (news_data : List NewsItem) :
    List NewsItem :=
  List.insertionSort (fun a b => relevance_key b ≤ relevance_key a)
    (FlashReasonEngine.score_news now news_data)

/-- The ordered category keyword table of `_classify_event_type`. -/
def TYPE_KEYWORDS : List (String × List String) :=
  [("earnings", ["earnings", "eps", "revenue", "quarter", "fiscal", "guidance"]),
   ("regulatory", ["bis", "fda", "ftc", "sec", "settlement", "export", "sanction", "penalty"]),
   ("supply_chain", ["tsmc", "samsung", "foundry", "fab", "capex", "equipment order"]),
   ("analyst", ["upgrade", "downgrade", "target", "rating", "overweight", "analyst"]),
   ("ma", ["acquisition", "merger", "buyout", "deal", "partnership"]),
   ("sector", ["semiconductor", "chip", "sector", "etf", "industry"]),
   ("macro", ["fed", "fomc", "inflation", "tariff", "trade war"])]

/-- `FlashReasonEngine._classify_event_type`: first matching category wins. -/
def FlashReasonEngine.classify_event_type (a : NewsItem) : String :=
  let title := lowerStr (a.title.getD "")
  match TYPE_KEYWORDS.find? (fun p => p.2.any fun kw => containsSub kw title) with
  | some p => p.1
  | none => "other"

/-- A reason-candidate dict built by `analyze` from a top-ranked item. -/
structure ReasonCandidate where
  rank : Nat
  title : String
  summary : String
  source_url : String
  source : String
  source_type : String
  confidence : ℚ
  event_type : String
  sentiment : String
  timestamp : Option ℚ
deriving DecidableEq

/-- One candidate of `analyze`'s loop body.  The source reads
`item["title"]` by direct subscript, so a missing title raises `KeyError`;
every other field is read with a `.get` default. -/
def FlashReasonEngine.make_candidate (i : Nat) (item : NewsItem) :
    Except String ReasonCandidate :=
  match item.title with
  | none => .error "KeyError: title"
  | some t =>
    .ok { rank := i + 1,
          title := t,
          summary := (item.summary.getD "").take 200,
          source_url := item.url.getD "",
          source := item.source.getD "",
          source_type := item.source_type.getD "news",
          confidence := item.relevance_score.getD 0.5,
          event_type := FlashReasonEngine.classify_event_type item,
          sentiment := item.sentiment.getD "neutral",
          timestamp := item.timestamp }

/-- The `for i, item in enumerate(top3)` candidate-building loop; an error
(a raised `KeyError`) aborts the whole loop, as in Python. -/
def FlashReasonEngine.make_candidates (i : Nat) :
    List NewsItem → Except String (List ReasonCandidate)
  | [] => .ok []
  | item :: rest =>
    match FlashReasonEngine.make_candidate i item with
    | .error e => .error e
    | .ok c =>
      match FlashReasonEngine.make_candidates (i + 1) rest with
      | .error e => .error e
      | .ok cs => .ok (c :: cs)

/-- The per-candidate text `(title + ' ' + summary).lower()`. -/
def FlashReasonEngine.candidate_text (c : ReasonCandidate) : String :=
  lowerStr (c.title ++ " " ++ c.summary)

/-- The `all_text` accumulator of `_classify_event`. -/
def FlashReasonEngine.all_text (candidates : List ReasonCandidate) : String :=
  candidates.foldl (fun acc c => acc ++ FlashReasonEngine.candidate_text c ++ " ") ""

/-- `fact_sources`: candidates whose source type is filing or regulatory. -/
def FlashReasonEngine.fact_sources (candidates : List ReasonCandidate) : Nat :=
  candidates.countP fun c => c.source_type == "filing" || c.source_type == "regulatory"

def GUIDE_DOWN_TERMS : List String :=
  ["guidance below", "guide down", "lowered guidance",
   "cut guidance", "reduced outlook", "below expectations",
   "disappointing guidance", "weak guidance", "outlook miss",
   "declines after", "falls despite", "drops despite",
   "despite beat", "despite strong"]

def BEAT_TERMS : List String :=
  ["beat", "topped", "exceeded", "surpassed", "above estimate"]

/-- The price-direction signal of `_classify_event`:
`(price_direction, price_change)`. -/
def FlashReasonEngine.price_signal (price_data : PriceData) : Int × ℚ :=
  if price_data.isEmpty then (0, 0)
  else
    let price_change := price_data.change_pct.getD 0
    (if price_change ≤ -2 then -1 else if price_change ≥ 2 then 1 else 0,
     price_change)

/-- The `reasoning` f-strings of `_classify_event`, as tags carrying the
cited numeric facts. -/
inductive Reasoning
  | insufficient_data
  | beat_guide_down
  | price_drop_news (price_change : ℚ) (news_count : Nat)
  | price_up_facts (price_change : ℚ)
  | fact_negative (fact_count : Nat)
  | fact_positive (fact_count : Nat)
  | sentiment_positive (pos neg : Nat)
  | sentiment_negative (neg pos : Nat)
  | weak_evidence
deriving DecidableEq

/-- The classification dict `{type, confidence, reasoning}`. -/
structure Classification where
  type : String
  confidence : ℚ
  reasoning : Reasoning
deriving DecidableEq

/-- `FlashReasonEngine._classify_event`: the priority-ordered cascade. -/
def FlashReasonEngine.classify_event (candidates : List ReasonCandidate)
    (all_news : List NewsItem) (price_data : PriceData) : Classification :=
  if candidates.isEmpty then
    { type := "Unknown", confidence := 0, reasoning := .insufficient_data }
  else
    let fact_count := FlashReasonEngine.fact_sources candidates
    let sentiments := candidates.map fun c => c.sentiment
    let positive_count := sentiments.count "positive"
    let negative_count := sentiments.count "negative"
    let negative_found := candidates.any fun c =>
      NEGATIVE_KEYWORDS.any fun kw => containsSub (lowerStr kw) (FlashReasonEngine.candidate_text c)
    let positive_found := candidates.any fun c =>
      POSITIVE_KEYWORDS.any fun kw => containsSub (lowerStr kw) (FlashReasonEngine.candidate_text c)
    let txt := FlashReasonEngine.all_text candidates
    let ps := FlashReasonEngine.price_signal price_data
    let price_direction := ps.1
    let price_change := ps.2
    let has_beat := BEAT_TERMS.any fun t => containsSub t txt
    let has_guide_down := GUIDE_DOWN_TERMS.any fun t => containsSub t txt
    let beat_guide_down := (has_beat && price_direction == -1) || has_guide_down
    if beat_guide_down then
      { type := "Fracture", confidence := 0.9, reasoning := .beat_guide_down }
    else if price_direction == -1 && (decide (fact_count ≥ 1) || decide (all_news.length ≥ 3)) then
      { type := "Fracture", confidence := if fact_count ≥ 1 then 0.85 else 0.7,
        reasoning := .price_drop_news price_change all_news.length }
    else if price_direction == 1 && (decide (fact_count ≥ 1) || positive_found) then
      { type := "Catalyst", confidence := if fact_count ≥ 1 then 0.85 else 0.7,
        reasoning := .price_up_facts price_change }
    else if decide (fact_count ≥ 1) && negative_found && !positive_found then
      { type := "Fracture", confidence := 0.8, reasoning := .fact_negative fact_count }
    else if decide (fact_count ≥ 1) && positive_found then
      { type := "Catalyst", confidence := 0.85, reasoning := .fact_positive fact_count }
    else if decide (positive_count > negative_count) && decide (all_news.length ≥ 5) then
      { type := "Catalyst", confidence := 0.7,
        reasoning := .sentiment_positive positive_count negative_count }
    else if negative_count > positive_count then
      { type := "Fracture", confidence := 0.65,
        reasoning := .sentiment_negative negative_count positive_count }
    else
      { type := "Noise", confidence := 0.5, reasoning := .weak_evidence }

/-- A playbook entry. -/
structure Playbook where
  id : String
  actions : List String
  reevaluation : String
deriving DecidableEq

/-- `FlashReasonEngine._get_playbook`: pure lookup with a default. -/
def FlashReasonEngine.get_playbook (classification : Classification) : Playbook :=
  if classification.type == "Noise" then
    { id := "PB-NOISE-01",
      actions := ["체크리스트: 팩트 근거 재확인", "재평가 타이머: 15분 후", "추가 소스 확인 필요"],
      reevaluation := "15min" }
  else if classification.type == "Fracture" then
    { id := "PB-FRACTURE-01",
      actions := ["리스크 상향: 즉시 포지션 재평가", "손절 체크리스트 확인",
                  "관련 종목 영향 확인", "재평가 타이머: 종가 기준"],
      reevaluation := "close" }
  else if classification.type == "Catalyst" then
    { id := "PB-CATALYST-01",
      actions := ["추적 강화: 15분 간격 모니터링", "관련 종목 동향 확인",
                  "재평가 시점: 종가 기준", "서사 전환 여부 추적"],
      reevaluation := "close" }
  else
    { id := "PB-UNKNOWN-01", actions := ["수동 확인 필요"], reevaluation := "30min" }

/-- The result dict of `FlashReasonEngine.analyze`. -/
structure AnalyzeResult where
  ticker : String
  timestamp : ℚ
  reason_candidates : List ReasonCandidate
  classification : Classification
  playbook : Playbook
deriving DecidableEq

/-- `FlashReasonEngine.analyze`.  `now` is the ambient `datetime.utcnow()`.
Besides the result it returns the input news list as mutated by the in-place
relevance scoring; the classification receives that same mutated list (the
caller's `news_data`).  `options_data` is accepted and never read, as in the
source.  The `Except` models the `KeyError` raised by `item["title"]`. -/
def FlashReasonEngine.analyze (ticker : String) (now : ℚ)
    (news_data : List NewsItem) (price_data : PriceData)
    (_options_data : OptionsData) :
    Except String (AnalyzeResult × List NewsItem) :=
  let scored := FlashReasonEngine.score_news now news_data
  let ranked := FlashReasonEngine.score_and_rank_news now news_data
  let top3 := ranked.take 3
  match FlashReasonEngine.make_candidates 0 top3 with
  | .error e => .error e
  | .ok reason_candidates =>
    let classification := FlashReasonEngine.classify_event reason_candidates scored price_data
    let playbook := FlashReasonEngine.get_playbook classification
    .ok ({ ticker := ticker, timestamp := now,
           reason_candidates := reason_candidates,
           classification := classification,
           playbook := playbook }, scored)

/-! ## Helper lemmas -/

lemma ite_nonneg {c : Prop} [Decidable c] {a b : ℚ} (ha : 0 ≤ a) (hb : 0 ≤ b) :
    0 ≤ if c then a else b := by
  split <;> assumption

lemma clamp10_nonneg (x : ℚ) : 0 ≤ max 0 (min 10 x) := le_max_left 0 _

lemma clamp10_le (x : ℚ) : max 0 (min 10 x) ≤ 10 :=
  max_le (by norm_num) (min_le_left _ _)

set_option maxHeartbeats 1000000 in
lemma calc_options_score_nonneg (d : OptionsData) :
    0 ≤ (PreSignalEngine.calc_options_score d).1 := by
  unfold PreSignalEngine.calc_options_score
  split
  · norm_num
  · dsimp only
    refine le_min (by norm_num) ?_
    repeat' apply add_nonneg
    all_goals split_ifs <;> norm_num [OPTIONS_SCORING]

lemma calc_options_score_le (d : OptionsData) :
    (PreSignalEngine.calc_options_score d).1 ≤ 10 := by
  unfold PreSignalEngine.calc_options_score
  split
  · norm_num
  · exact min_le_left _ _

set_option maxHeartbeats 1000000 in
lemma calc_attention_score_nonneg (sd : SocialData) (nd : List NewsItem) :
    0 ≤ (PreSignalEngine.calc_attention_score sd nd).1 := by
  unfold PreSignalEngine.calc_attention_score
  dsimp only
  refine le_min (by norm_num) ?_
  repeat' apply add_nonneg
  all_goals split_ifs <;> norm_num [ATTENTION_SCORING]

lemma calc_attention_score_le (sd : SocialData) (nd : List NewsItem) :
    (PreSignalEngine.calc_attention_score sd nd).1 ≤ 10 := by
  unfold PreSignalEngine.calc_attention_score
  exact min_le_left _ _

set_option maxHeartbeats 1000000 in
lemma calc_fact_score_nonneg (nd : List NewsItem) :
    0 ≤ (PreSignalEngine.calc_fact_score nd).1 := by
  unfold PreSignalEngine.calc_fact_score
  dsimp only
  refine le_min (by norm_num) ?_
  repeat' apply add_nonneg
  all_goals split_ifs <;> norm_num [FACT_SCORING]

lemma calc_fact_score_le (nd : List NewsItem) :
    (PreSignalEngine.calc_fact_score nd).1 ≤ 10 := by
  unfold PreSignalEngine.calc_fact_score
  exact min_le_left _ _

set_option maxHeartbeats 1000000 in
lemma calc_price_boost_nonneg (pd : PriceData) :
    0 ≤ (PreSignalEngine.calc_price_boost pd).1 := by
  unfold PreSignalEngine.calc_price_boost
  split
  · norm_num
  · dsimp only
    refine le_min (by norm_num) ?_
    apply add_nonneg <;> split_ifs <;> norm_num

lemma calc_price_boost_le (pd : PriceData) :
    (PreSignalEngine.calc_price_boost pd).1 ≤ 4.5 := by
  unfold PreSignalEngine.calc_price_boost
  split
  · norm_num
  · exact min_le_left _ _

lemma calc_noise_penalty_nonneg (a f : ℚ) :
    0 ≤ PreSignalEngine.calc_noise_penalty a f := by
  unfold PreSignalEngine.calc_noise_penalty
  split
  · rename_i h
    refine le_min (by norm_num [NOISE_PENALTY_MAX]) ?_
    have h1 : 0 ≤ a - f := by linarith [h.1, h.2]
    exact mul_nonneg h1 (by norm_num)
  · norm_num

lemma calculate_psi_total_eq (w : ScoreWeights) (e : PreSignalEngine) (now : ℚ)
    (od : OptionsData) (sd : SocialData) (nd : List NewsItem) (pd : PriceData) :
    (PreSignalEngine.calculate w e now od sd nd pd).1.psi_total =
      max 0 (min 10 (round1
        (w.options * (PreSignalEngine.calc_options_score od).1 +
         w.attention * (PreSignalEngine.calc_attention_score sd nd).1 +
         w.fact * (PreSignalEngine.calc_fact_score nd).1 +
         (PreSignalEngine.calculate w e now od sd nd pd).1.confluence_bonus +
         (PreSignalEngine.calc_price_boost pd).1 -
         (PreSignalEngine.calculate w e now od sd nd pd).1.noise_penalty))) := rfl

/-! ## Claim theorems -/

/-- C1: `calculate` returns
`psi_total = clamp(0, 10, round(weighted_sum + confluence_bonus + price_boost − noise_penalty, 1))`
with the configured weights, where `confluence_bonus` is `CONFLUENCE_BONUS`
exactly when at least two of the three component scores are ≥ 5 and 0
otherwise, and `noise_penalty` is
`min(NOISE_PENALTY_MAX, (attention − fact) · 0.3)` under the
`attention ≥ 5 ∧ fact ≤ 2` guard and 0 otherwise — hence always ≥ 0. -/
theorem C1_psi_total_formula (e : PreSignalEngine) (now : ℚ) (od : OptionsData)
    (sd : SocialData) (nd : List NewsItem) (pd : PriceData) :
    let r := (PreSignalEngine.calculate SCORE_WEIGHTS e now od sd nd pd).1
    let price_boost := (PreSignalEngine.calc_price_boost pd).1
    r.psi_total = max 0 (min 10 (round1
      (SCORE_WEIGHTS.options * r.options_score +
       SCORE_WEIGHTS.attention * r.attention_score +
       SCORE_WEIGHTS.fact * r.fact_score +
       r.confluence_bonus + price_boost - r.noise_penalty))) ∧
    r.confluence_bonus =
      (if ([r.options_score, r.attention_score, r.fact_score].countP
            fun s => decide (s ≥ 5)) ≥ 2 then CONFLUENCE_BONUS else 0) ∧
    r.noise_penalty =
      (if r.attention_score ≥ 5 ∧ r.fact_score ≤ 2 then
        min NOISE_PENALTY_MAX ((r.attention_score - r.fact_score) * 0.3)
      else 0) ∧
    0 ≤ r.noise_penalty := by
  refine ⟨rfl, rfl, rfl, ?_⟩
  exact calc_noise_penalty_nonneg _ _

/-- C2: for all inputs, the three component scores lie in [0, 10], the price
boost lies in [0, 4.5], and `psi_total` lies in [0, 10]. -/
theorem C2_score_bounds (w : ScoreWeights) (e : PreSignalEngine) (now : ℚ)
    (od : OptionsData) (sd : SocialData) (nd : List NewsItem) (pd : PriceData) :
    (0 ≤ (PreSignalEngine.calc_options_score od).1 ∧
      (PreSignalEngine.calc_options_score od).1 ≤ 10) ∧
    (0 ≤ (PreSignalEngine.calc_attention_score sd nd).1 ∧
      (PreSignalEngine.calc_attention_score sd nd).1 ≤ 10) ∧
    (0 ≤ (PreSignalEngine.calc_fact_score nd).1 ∧
      (PreSignalEngine.calc_fact_score nd).1 ≤ 10) ∧
    (0 ≤ (PreSignalEngine.calc_price_boost pd).1 ∧
      (PreSignalEngine.calc_price_boost pd).1 ≤ 4.5) ∧
    (0 ≤ (PreSignalEngine.calculate w e now od sd nd pd).1.psi_total ∧
      (PreSignalEngine.calculate w e now od sd nd pd).1.psi_total ≤ 10) := by
  refine ⟨⟨calc_options_score_nonneg od, calc_options_score_le od⟩,
         ⟨calc_attention_score_nonneg sd nd, calc_attention_score_le sd nd⟩,
         ⟨calc_fact_score_nonneg nd, calc_fact_score_le nd⟩,
         ⟨calc_price_boost_nonneg pd, calc_price_boost_le pd⟩, ?_, ?_⟩
  · rw [calculate_psi_total_eq]
    exact clamp10_nonneg _
  · rw [calculate_psi_total_eq]
    exact clamp10_le _

lemma get_level_eq (psi : ℚ) (h0 : 0 ≤ psi) :
    PreSignalEngine.get_level psi =
      if psi < 3 then "normal" else if psi < 5 then "watch"
      else if psi < 7 then "alert" else "critical" := by
  unfold PreSignalEngine.get_level PSI_LEVELS
  rcases lt_or_le psi 3 with h3 | h3
  · rw [List.find?_cons_of_pos _ (by simp [h0, h3])]
    simp [h3]
  · rw [List.find?_cons_of_neg _ (by simp [h3, not_lt])]
    rcases lt_or_le psi 5 with h5 | h5
    · rw [List.find?_cons_of_pos _ (by simp [h3, h5])]
      simp [h5, not_lt_of_le h3]
    · rw [List.find?_cons_of_neg _ (by simp [h5, not_lt])]
      rcases lt_or_le psi 7 with h7 | h7
      · rw [List.find?_cons_of_pos _ (by simp [h5, h7])]
        simp [h7, not_lt_of_le h3, not_lt_of_le h5]
      · rw [List.find?_cons_of_neg _ (by simp [h7, not_lt])]
        rcases lt_or_le psi 10 with ht | ht
        · rw [List.find?_cons_of_pos _ (by simp [h7, ht])]
          simp [not_lt_of_le h3, not_lt_of_le h5, not_lt_of_le h7]
        · rw [List.find?_cons_of_neg _ (by simp [ht, not_lt])]
          simp [List.find?, not_lt_of_le h3, not_lt_of_le h5, not_lt_of_le h7, ge_iff_le, h7]

/-- C3: on [0, 10] the level classification partitions into the half-open
bands [0,3) = normal, [3,5) = watch, [5,7) = alert, [7,10] = critical, the
upper bound inclusive only at 10; in particular 2.9, 3.0, 4.9, 5.0, 6.9, 7.0
and 10.0 map to normal, watch, watch, alert, alert, critical, critical. -/
theorem C3_level_band_partition (psi : ℚ) (h0 : 0 ≤ psi) (h10 : psi ≤ 10) :
    ((PreSignalEngine.get_level psi = "normal" ↔ psi < 3) ∧
     (PreSignalEngine.get_level psi = "watch" ↔ 3 ≤ psi ∧ psi < 5) ∧
     (PreSignalEngine.get_level psi = "alert" ↔ 5 ≤ psi ∧ psi < 7) ∧
     (PreSignalEngine.get_level psi = "critical" ↔ 7 ≤ psi)) ∧
    PreSignalEngine.get_level 2.9 = "normal" ∧
    PreSignalEngine.get_level 3.0 = "watch" ∧
    PreSignalEngine.get_level 4.9 = "watch" ∧
    PreSignalEngine.get_level 5.0 = "alert" ∧
    PreSignalEngine.get_level 6.9 = "alert" ∧
    PreSignalEngine.get_level 7.0 = "critical" ∧
    PreSignalEngine.get_level 10.0 = "critical" := by
  refine ⟨?_,
    by rw [get_level_eq 2.9 (by norm_num), if_pos (by norm_num)],
    by rw [get_level_eq 3.0 (by norm_num), if_neg (by norm_num), if_pos (by norm_num)],
    by rw [get_level_eq 4.9 (by norm_num), if_neg (by norm_num), if_pos (by norm_num)],
    by rw [get_level_eq 5.0 (by norm_num), if_neg (by norm_num), if_neg (by norm_num),
           if_pos (by norm_num)],
    by rw [get_level_eq 6.9 (by norm_num), if_neg (by norm_num), if_neg (by norm_num),
           if_pos (by norm_num)],
    by rw [get_level_eq 7.0 (by norm_num), if_neg (by norm_num), if_neg (by norm_num),
           if_neg (by norm_num)],
    by rw [get_level_eq 10.0 (by norm_num), if_neg (by norm_num), if_neg (by norm_num),
           if_neg (by norm_num)]⟩
  rcases lt_or_le psi 3 with h3 | h3
  · rw [get_level_eq psi h0, if_pos h3]
    exact ⟨⟨fun _ => h3, fun _ => rfl⟩,
           ⟨fun h => absurd h (by decide), fun h => absurd h3 (not_lt_of_le h.1)⟩,
           ⟨fun h => absurd h (by decide),
            fun h => absurd h3 (not_lt_of_le (le_trans (by norm_num) h.1))⟩,
           ⟨fun h => absurd h (by decide),
            fun h => absurd h3 (not_lt_of_le (le_trans (by norm_num) h))⟩⟩
  · rcases lt_or_le psi 5 with h5 | h5
    · rw [get_level_eq psi h0, if_neg (not_lt_of_le h3), if_pos h5]
      exact ⟨⟨fun h => absurd h (by decide), fun h => absurd h (not_lt_of_le h3)⟩,
             ⟨fun _ => ⟨h3, h5⟩, fun _ => rfl⟩,
             ⟨fun h => absurd h (by decide), fun h => absurd h5 (not_lt_of_le h.1)⟩,
             ⟨fun h => absurd h (by decide),
              fun h => absurd h5 (not_lt_of_le (le_trans (by norm_num) h))⟩⟩
    · rcases lt_or_le psi 7 with h7 | h7
      · rw [get_level_eq psi h0, if_neg (not_lt_of_le h3), if_neg (not_lt_of_le h5), if_pos h7]
        exact ⟨⟨fun h => absurd h (by decide),
                fun h => absurd h (not_lt_of_le (le_trans (by norm_num) h5))⟩,
               ⟨fun h => absurd h (by decide), fun h => absurd h.2 (not_lt_of_le h5)⟩,
               ⟨fun _ => ⟨h5, h7⟩, fun _ => rfl⟩,
               ⟨fun h => absurd h (by decide), fun h => absurd h7 (not_lt_of_le h)⟩⟩
      · rw [get_level_eq psi h0, if_neg (not_lt_of_le h3), if_neg (not_lt_of_le h5),
            if_neg (not_lt_of_le h7)]
        exact ⟨⟨fun h => absurd h (by decide),
                fun h => absurd h (not_lt_of_le (le_trans (by norm_num) h5))⟩,
               ⟨fun h => absurd h (by decide), fun h => absurd h.2 (not_lt_of_le h5)⟩,
               ⟨fun h => absurd h (by decide), fun h => absurd h.2 (not_lt_of_le h7)⟩,
               ⟨fun _ => h7, fun _ => rfl⟩⟩

/-- Witness for C3 at `psi = 10`: the hypotheses hold and the band theorem
yields the critical level. -/
theorem C3_level_band_partition_witness :
    (0:ℚ) ≤ 10 ∧ (10:ℚ) ≤ 10 ∧ PreSignalEngine.get_level 10 = "critical" :=
  ⟨by norm_num, by norm_num,
   ((C3_level_band_partition 10 (by norm_num) (by norm_num)).1.2.2.2).mpr (by norm_num)⟩

/-- C4: whenever the concatenated candidate text contains a beat term and
the price change is −3% (so `price_direction = −1` and `beat_guide_down`
holds), `_classify_event` returns Fracture with confidence 0.9, whatever the
candidates, the news list, the fact sources or the sentiment counts — the
cascade's rule 2 fires before every later rule. -/
theorem C4_beat_guide_down_cascade (cands : List ReasonCandidate)
    (news : List NewsItem) (pd : PriceData)
    (hbeat : (BEAT_TERMS.any fun t => containsSub t (FlashReasonEngine.all_text cands)) = true)
    (hpc : pd.change_pct = some (-3)) :
    FlashReasonEngine.classify_event cands news pd =
      { type := "Fracture", confidence := 0.9, reasoning := .beat_guide_down } := by
  have hne : cands.isEmpty = false := by
    cases cands with
    | nil => exact absurd hbeat (by decide)
    | cons c cs => rfl
  have hpe : pd.isEmpty = false := by
    simp [PriceData.isEmpty, hpc]
  have hps : FlashReasonEngine.price_signal pd = (-1, -3) := by
    unfold FlashReasonEngine.price_signal
    rw [if_neg (by simp [hpe]), hpc]
    norm_num
  unfold FlashReasonEngine.classify_event
  rw [if_neg (by simp [hne])]
  dsimp only
  rw [hps, hbeat]
  norm_num

/-- Witness for C4: one candidate whose title holds a beat phrase, together
with a −3% price snapshot, classifies as Fracture 0.9. -/
theorem C4_beat_guide_down_cascade_witness :
    FlashReasonEngine.classify_event
        [{ rank := 1, title := "Q3 earnings beat estimates", summary := "",
           source_url := "", source := "finnhub", source_type := "news",
           confidence := 0.5, event_type := "earnings", sentiment := "positive",
           timestamp := none }]
        [] { change_pct := some (-3) } =
      { type := "Fracture", confidence := 0.9, reasoning := .beat_guide_down } :=
  C4_beat_guide_down_cascade _ _ _ (by decide) rfl

/-- C5: the options score is min(10, sum of the applied rule increments),
with the two OTM tiers mutually exclusive (ratio ≥ 5 contributes exactly +5,
else ratio ≥ 3 contributes +3), the remaining rules independently additive
(+2, +2, +1, +1, +1), and the empty bundle mapped to score 0 with the
no-data evidence entry. -/
theorem C5_options_score_additive (d : OptionsData) :
    (d.isEmpty = true →
      PreSignalEngine.calc_options_score d = (0, [OptFactor.no_data])) ∧
    (d.isEmpty = false →
      (PreSignalEngine.calc_options_score d).1 =
        min 10
          ((if d.otm_call_volume_ratio.getD 0 ≥ 5 then (5:ℚ)
            else if d.otm_call_volume_ratio.getD 0 ≥ 3 then 3 else 0) +
           (if d.short_expiry_pct.getD 0 ≥ 0.6 then 2 else 0) +
           (if |d.oi_change_pct.getD 0| ≥ 50 then 2 else 0) +
           (if |d.iv_skew_sigma.getD 0| ≥ 2 then 1 else 0) +
           (if d.large_trade_count.getD 0 > 0 then 1 else 0) +
           (if d.pc_ratio.getD 1.0 < 0.5 ∨ d.pc_ratio.getD 1.0 > 2.0 then 1 else 0))) := by
  constructor
  · intro h
    unfold PreSignalEngine.calc_options_score
    rw [if_pos h]
  · intro h
    unfold PreSignalEngine.calc_options_score
    rw [if_neg (by simp [h])]
    rfl

/-- Witness for C5: a non-empty bundle with OTM ratio 6 scores exactly 5 —
the 5× tier alone, never 5 + 3. -/
theorem C5_options_score_additive_witness :
    (PreSignalEngine.calc_options_score { otm_call_volume_ratio := some 6 }).1 = 5 := by
  have h := (C5_options_score_additive { otm_call_volume_ratio := some 6 }).2 rfl
  rw [h]
  norm_num

/-- The weight configuration used to refute C6. -/
def BAD_WEIGHTS : ScoreWeights := { options := 0.5, attention := 0.5, fact := 0.5 }

/-- C6 counterexample: with weights summing to 1.5 the constructor still
succeeds and an evaluation still runs — nothing fails fast. -/
theorem C6_counterexample :
    BAD_WEIGHTS.options + BAD_WEIGHTS.attention + BAD_WEIGHTS.fact ≠ 1 ∧
    PreSignalEngine.init BAD_WEIGHTS "AMAT" =
      Except.ok { ticker := "AMAT", watch := WATCHMAP_get "AMAT" } ∧
    (PreSignalEngine.calculate BAD_WEIGHTS
        { ticker := "AMAT", watch := WATCHMAP_get "AMAT" } 0 {} {} [] {}).1.options_score = 0 :=
  ⟨by norm_num [BAD_WEIGHTS], rfl, rfl⟩

/-- C6 (amended): the constructor performs no weight validation and always
succeeds, for any weights; the repository's fixed `SCORE_WEIGHTS` do sum
to 1.0, so every evaluation run in the repository uses weights summing
to 1.0. -/
theorem C6_constructor_never_validates (w : ScoreWeights) (t : String) :
    PreSignalEngine.init w t = Except.ok { ticker := t, watch := WATCHMAP_get t } ∧
    SCORE_WEIGHTS.options + SCORE_WEIGHTS.attention + SCORE_WEIGHTS.fact = 1 :=
  ⟨rfl, by norm_num [SCORE_WEIGHTS]⟩

/-- A news item with no title and no timestamp. -/
def MALFORMED_ITEM : NewsItem :=
  { summary := some "chip maker update", source := some "finnhub",
    source_type := some "news" }

/-- C7: a malformed item (missing title and timestamp) is not skipped — it
is ranked and counted like any other item — and when it reaches the top-3
candidates, `analyze` aborts with the `KeyError` raised by `item["title"]`. -/
theorem C7_malformed_item_not_skipped :
    FlashReasonEngine.analyze "AMAT" 0 [MALFORMED_ITEM] {} {} =
      Except.error "KeyError: title" ∧
    (FlashReasonEngine.score_and_rank_news 0 [MALFORMED_ITEM]).length = 1 ∧
    (PreSignalEngine.calc_fact_score [MALFORMED_ITEM]).2.news_count = 1 :=
  ⟨rfl, rfl, rfl⟩

/-- The engine object used to exhibit C8's side effects. -/
def AMAT_ENGINE : PreSignalEngine := { ticker := "AMAT", watch := WATCHMAP_get "AMAT" }

/-- A well-formed collector item (no relevance annotation yet). -/
def PLAIN_ITEM : NewsItem := { title := some "chip news", source := some "reuters" }

/-- C8 counterexample: `calculate` issues a database write on every call and
stamps the ambient wall clock into its result, so two calls with identical
inputs at different instants differ; and the ranker mutates its input items
(writes `relevance_score` into them). -/
theorem C8_counterexample :
    (PreSignalEngine.calculate SCORE_WEIGHTS AMAT_ENGINE 0 {} {} [] {}).2.length = 1 ∧
    (PreSignalEngine.calculate SCORE_WEIGHTS AMAT_ENGINE 0 {} {} [] {}).1 ≠
      (PreSignalEngine.calculate SCORE_WEIGHTS AMAT_ENGINE 1 {} {} [] {}).1 ∧
    FlashReasonEngine.score_news 0 [PLAIN_ITEM] ≠ [PLAIN_ITEM] := by
  refine ⟨rfl, fun h => ?_, fun h => ?_⟩
  · have h0 : (PreSignalEngine.calculate SCORE_WEIGHTS AMAT_ENGINE 0 {} {} [] {}).1.timestamp = 0 := rfl
    have h1 : (PreSignalEngine.calculate SCORE_WEIGHTS AMAT_ENGINE 1 {} {} [] {}).1.timestamp = 1 := rfl
    have h01 : (0:ℚ) = 1 := by rw [← h0, ← h1, h]
    norm_num at h01
  · have hm : (FlashReasonEngine.score_news 0 [PLAIN_ITEM]).map
        (fun a => a.relevance_score.isSome) = [true] := rfl
    have hm0 : ([PLAIN_ITEM] : List NewsItem).map
        (fun a => a.relevance_score.isSome) = [false] := rfl
    have : ([true] : List Bool) = [false] := by rw [← hm, h, hm0]
    simp at this

/-- C8 (amended): holding the ambient clock fixed, an evaluation is a pure
function of its inputs; every result field except the wall-clock timestamp
is independent of the clock; and each call performs exactly one database
write. -/
theorem C8_deterministic_given_clock (w : ScoreWeights) (e : PreSignalEngine)
    (t1 t2 : ℚ) (od : OptionsData) (sd : SocialData) (nd : List NewsItem)
    (pd : PriceData) :
    let r1 := PreSignalEngine.calculate w e t1 od sd nd pd
    let r2 := PreSignalEngine.calculate w e t2 od sd nd pd
    r1.1.options_score = r2.1.options_score ∧
    r1.1.attention_score = r2.1.attention_score ∧
    r1.1.fact_score = r2.1.fact_score ∧
    r1.1.confluence_bonus = r2.1.confluence_bonus ∧
    r1.1.noise_penalty = r2.1.noise_penalty ∧
    r1.1.psi_total = r2.1.psi_total ∧
    r1.1.level = r2.1.level ∧
    r1.1.details = r2.1.details ∧
    r1.2.length = 1 :=
  ⟨rfl, rfl, rfl, rfl, rfl, rfl, rfl, rfl, rfl⟩

lemma filter_orderedInsert_key {α : Type} (key : α → ℚ) (s : ℚ) (x : α)
    (l : List α) :
    (List.orderedInsert (fun a b => key b ≤ key a) x l).filter
        (fun a => decide (key a = s)) =
      if key x = s then x :: l.filter (fun a => decide (key a = s))
      else l.filter (fun a => decide (key a = s)) := by
  induction l with
  | nil =>
    simp only [List.orderedInsert, List.filter_cons, List.filter_nil, decide_eq_true_eq]
  | cons b l ih =>
    simp only [List.orderedInsert]
    by_cases hbx : key b ≤ key x
    · rw [if_pos hbx]
      simp only [List.filter_cons, decide_eq_true_eq]
    · rw [if_neg hbx]
      simp only [List.filter_cons, decide_eq_true_eq]
      have hxb : key x < key b := lt_of_not_le hbx
      by_cases hx : key x = s
      · have hbs : ¬(key b = s) := by
          intro hbs
          rw [hx, hbs] at hxb
          exact lt_irrefl s hxb
        simp only [hx, hbs, if_true, if_false, ih]
      · by_cases hbs : key b = s <;> simp [hx, hbs, ih]

lemma filter_insertionSort_key {α : Type} (key : α → ℚ) (s : ℚ) (l : List α) :
    (List.insertionSort (fun a b => key b ≤ key a) l).filter
        (fun a => decide (key a = s)) =
      l.filter (fun a => decide (key a = s)) := by
  induction l with
  | nil => rfl
  | cons x l ih =>
    simp only [List.insertionSort]
    rw [filter_orderedInsert_key, ih, List.filter_cons]
    by_cases hx : key x = s <;> simp [hx]

lemma sorted_score_and_rank_news (now : ℚ) (news : List NewsItem) :
    List.Sorted (fun a b => relevance_key b ≤ relevance_key a)
      (FlashReasonEngine.score_and_rank_news now news) := by
  haveI : IsTotal NewsItem (fun a b => relevance_key b ≤ relevance_key a) :=
    ⟨fun a b => le_total (relevance_key b) (relevance_key a)⟩
  haveI : IsTrans NewsItem (fun a b => relevance_key b ≤ relevance_key a) :=
    ⟨fun _ _ _ hab hbc => le_trans hbc hab⟩
  exact List.sorted_insertionSort _ _

/-- C9: ranking is a stable descending sort: the ranked list is a
permutation of the scored input, its relevance keys are non-increasing, and
for every relevance value the items carrying it appear in their original
input order (the filter at any key value is unchanged by the sort). -/
theorem C9_ranking_stable_descending (now : ℚ) (news : List NewsItem) :
    (FlashReasonEngine.score_and_rank_news now news).Perm
        (FlashReasonEngine.score_news now news) ∧
    List.Sorted (fun a b => relevance_key b ≤ relevance_key a)
        (FlashReasonEngine.score_and_rank_news now news) ∧
    ∀ s : ℚ,
      (FlashReasonEngine.score_and_rank_news now news).filter
          (fun a => decide (relevance_key a = s)) =
        (FlashReasonEngine.score_news now news).filter
          (fun a => decide (relevance_key a = s)) :=
  ⟨List.perm_insertionSort _ _, sorted_score_and_rank_news now news,
   fun s => filter_insertionSort_key relevance_key s _⟩

lemma make_candidate_ok_fields {i : Nat} {item : NewsItem} {c : ReasonCandidate}
    (h : FlashReasonEngine.make_candidate i item = .ok c) :
    c.rank = i + 1 ∧ c.title = item.title.getD "" := by
  unfold FlashReasonEngine.make_candidate at h
  cases ht : item.title with
  | none => rw [ht] at h; exact absurd h (by simp)
  | some t =>
    rw [ht] at h
    simp only [Except.ok.injEq] at h
    rw [← h]
    exact ⟨rfl, rfl⟩

lemma make_candidates_ok_spec :
    ∀ {l : List NewsItem} {i : Nat} {cs : List ReasonCandidate},
    FlashReasonEngine.make_candidates i l = .ok cs →
      cs.length = l.length ∧
      cs.map (fun c => c.rank) = List.range' (i + 1) l.length ∧
      cs.map (fun c => c.title) = l.map (fun a => a.title.getD "") := by
  intro l
  induction l with
  | nil =>
    intro i cs h
    simp only [FlashReasonEngine.make_candidates, Except.ok.injEq] at h
    rw [← h]
    exact ⟨rfl, rfl, rfl⟩
  | cons item rest ih =>
    intro i cs h
    unfold FlashReasonEngine.make_candidates at h
    cases hmc : FlashReasonEngine.make_candidate i item with
    | error e => rw [hmc] at h; exact absurd h (by simp)
    | ok c =>
      rw [hmc] at h
      cases hrest : FlashReasonEngine.make_candidates (i + 1) rest with
      | error e => rw [hrest] at h; exact absurd h (by simp)
      | ok cs2 =>
        rw [hrest] at h
        simp only [Except.ok.injEq] at h
        obtain ⟨hlen, hranks, htitles⟩ := ih hrest
        obtain ⟨hrank, htitle⟩ := make_candidate_ok_fields hmc
        rw [← h]
        refine ⟨by simp [hlen], ?_, by simp [htitles, htitle]⟩
        simp only [List.map_cons, List.length_cons, List.range'_succ, hranks, hrank]

lemma classify_event_depends_on_length {cands : List ReasonCandidate}
    {n1 n2 : List NewsItem} {pd : PriceData} (h : n1.length = n2.length) :
    FlashReasonEngine.classify_event cands n1 pd =
      FlashReasonEngine.classify_event cands n2 pd := by
  unfold FlashReasonEngine.classify_event
  rw [h]

/-- C10: `analyze` returns at most three candidates — the min(3, n)
top-ranked items, dense ranks 1, 2, …; and the classification is computed
from the candidates, the price data and the news list's *length* alone, so
an item ranked fourth or lower can influence it only through `len(news)`. -/
theorem C10_top3_candidates (ticker : String) (now : ℚ) (news : List NewsItem)
    (pd : PriceData) (od : OptionsData) (r : AnalyzeResult)
    (scored : List NewsItem)
    (h : FlashReasonEngine.analyze ticker now news pd od = .ok (r, scored)) :
    r.reason_candidates.length = min 3 news.length ∧
    r.reason_candidates.map (fun c => c.rank) =
      List.range' 1 r.reason_candidates.length ∧
    r.reason_candidates.map (fun c => c.title) =
      ((FlashReasonEngine.score_and_rank_news now news).take 3).map
        (fun a => a.title.getD "") ∧
    ∀ news2 : List NewsItem, news2.length = news.length →
      FlashReasonEngine.classify_event r.reason_candidates news2 pd =
        r.classification := by
  simp only [FlashReasonEngine.analyze] at h
  cases hmc : FlashReasonEngine.make_candidates 0
      ((FlashReasonEngine.score_and_rank_news now news).take 3) with
  | error e => rw [hmc] at h; exact absurd h (by simp)
  | ok cs =>
    rw [hmc] at h
    simp only [Except.ok.injEq, Prod.mk.injEq] at h
    obtain ⟨hr, hsc⟩ := h
    obtain ⟨hlen, hranks, htitles⟩ := make_candidates_ok_spec hmc
    have htake : ((FlashReasonEngine.score_and_rank_news now news).take 3).length =
        min 3 news.length := by
      simp [List.length_take, FlashReasonEngine.score_and_rank_news,
            List.length_insertionSort, FlashReasonEngine.score_news]
    rw [← hr]
    refine ⟨by rw [hlen, htake], ?_, htitles, ?_⟩
    · simpa [hlen] using hranks
    · intro news2 hn2
      have hlen2 : news2.length = (FlashReasonEngine.score_news now news).length := by
        simp [FlashReasonEngine.score_news, hn2]
      exact classify_event_depends_on_length hlen2

/-- Witness for C10: on the empty news list `analyze` succeeds with no
candidates and the theorem's length conclusion holds. -/
theorem C10_top3_candidates_witness :
    (({ ticker := "AMAT", timestamp := 0, reason_candidates := [],
        classification := { type := "Unknown", confidence := 0,
                            reasoning := .insufficient_data },
        playbook := { id := "PB-UNKNOWN-01", actions := ["수동 확인 필요"],
                      reevaluation := "30min" } } : AnalyzeResult)).reason_candidates.length =
      min 3 ([] : List NewsItem).length :=
  (C10_top3_candidates "AMAT" 0 [] {} {} _ [] rfl).1

end Sentinel
